import Mathlib

/-!
Shallow embedding of the Express CRUD backend (`src/index.js`, GCS variant)
of the Backend_Distribuidos repository, together with proofs about the
behaviour of its HTTP handlers.

Modelling conventions:
* Database rows are Lean structures; the database is a `Db` record of lists.
* Request-body fields arrive as `Option String` (`none` = field absent from
  the request, `some s` = field supplied with string value `s`; multipart
  and JSON bodies deliver strings).  JavaScript truthiness on such a value
  is `jsTruthy`.
* External effects that can fail nondeterministically (the GCS upload, the
  GCS object delete, the log-row insert) are driven by boolean fields of an
  `Env` record; `Env` also carries `Date.now()` and the behaviour of the
  external `bcrypt` and `validator.isEmail` libraries as abstract functions.
* The Google Cloud Storage bucket is a list of object names.
* PostgreSQL constraint behaviour (foreign keys, the unique index on
  `users.username`) is modelled inside the `Db.*` operations, which return
  `Except DbErr Db`; the SQLSTATE codes 23503 / 23505 tested by the JS
  `catch` blocks become the `DbErr` constructors.
-/

/-- A row of the `users` table. -/
structure UserRow where
  id : Nat
  username : String
  email : String
  password : String
deriving Repr, DecidableEq

/-- A row of the `categories` table. -/
structure CategoryRow where
  id : Nat
  name : String
deriving Repr, DecidableEq

/-- A row of the `resources` table (columns used by the GCS variant). -/
structure ResourceRow where
  id : Nat
  filename : String
  path : String
  user_id : Nat
  category_id : Nat
deriving Repr, DecidableEq

/-- The relational state: the four tables. `logs` keeps only the action
strings (the timestamp column is filled in by the database). -/
structure Db where
  users : List UserRow
  categories : List CategoryRow
  resources : List ResourceRow
  logs : List String
deriving Repr, DecidableEq

/-- Database errors distinguished by the handlers' `catch` blocks:
`fkViolation` is SQLSTATE 23503, `uniqueViolation` is 23505, `badInput`
is any other database failure (e.g. 22P02 from a non-integer value sent
to an integer column). -/
inductive DbErr where
  | fkViolation
  | uniqueViolation
  | badInput
deriving Repr, DecidableEq

/-- The nondeterministic environment of one request: outcomes of the
external calls plus the external libraries' behaviour. -/
structure Env where
  uploadOk : Bool
  deleteOk : Bool
  logOk : Bool
  now : Nat
  bcryptHash : String → String
  isEmail : String → Bool

/-- An HTTP response: status code and the `message` (or error) field of
the JSON body. -/
structure HttpResponse where
  status : Nat
  message : String
deriving Repr, DecidableEq

/-- Result of a handler that touches only the database. -/
structure DbResult where
  resp : HttpResponse
  db : Db
deriving Repr

/-- Result of a resource handler: response, database, and bucket state. -/
structure ResResult where
  resp : HttpResponse
  db : Db
  storage : List String
deriving Repr

/-- Decimal digit value of a character (kernel-computable). -/
def charDigit? (c : Char) : Option Nat :=
  if 48 ≤ c.toNat && c.toNat ≤ 57 then some (c.toNat - 48) else none

/-- Accumulating decimal reader over a character list. -/
def digitsAcc : List Char → Nat → Option Nat
  | [], acc => some acc
  | c :: cs, acc =>
    match charDigit? c with
    | none => none
    | some d => digitsAcc cs (acc * 10 + d)

/-- Parse a non-negative decimal integer (the shape accepted both by the
`isInt` validator for positive values and by PostgreSQL's integer cast). -/
def decimalNat? (s : String) : Option Nat :=
  match s.data with
  | [] => none
  | cs => digitsAcc cs 0

/-- ASCII whitespace, as removed by the `trim` sanitizer. -/
def isSpaceChar (c : Char) : Bool :=
  c.toNat = 32 || c.toNat = 9 || c.toNat = 10 || c.toNat = 13

/-- Drop leading whitespace of a character list. -/
def dropLeadingSpaces : List Char → List Char
  | [] => []
  | c :: cs => if isSpaceChar c then dropLeadingSpaces cs else c :: cs

/-- The `trim` sanitizer (strip whitespace at both ends). -/
def strTrim (s : String) : String :=
  ⟨(dropLeadingSpaces ((dropLeadingSpaces s.data).reverse)).reverse⟩

/-- JavaScript truthiness of a request-body string field: `undefined` and
the empty string are falsy, every other string is truthy. -/
def jsTruthy : Option String → Bool
  | none => false
  | some s => s ≠ ""

/-- `username || user.username`: JavaScript falsy-coalescing on a
request-body field. -/
def jsOr (v : Option String) (dflt : String) : String :=
  match v with
  | none => dflt
  | some s => if s = "" then dflt else s

/-- `express-validator`'s `isInt({ gt: 0 })` on a body field (absent
fields fail). -/
def posIntOk (v : Option String) : Bool :=
  match v with
  | none => false
  | some s =>
    match decimalNat? s with
    | none => false
    | some n => n > 0

/-- Parse a validated positive-integer field (0 when absent/invalid;
only used after `posIntOk` has succeeded). -/
def parseIntField (v : Option String) : Nat :=
  match v with
  | none => 0
  | some s => (decimalNat? s).getD 0

namespace Db

/-- `SELECT * FROM users WHERE id = $1` (first row). -/
def findUser (db : Db) (id : Nat) : Option UserRow :=
  db.users.find? (fun u => u.id == id)

/-- `SELECT * FROM categories WHERE id = $1` (first row). -/
def findCategory (db : Db) (id : Nat) : Option CategoryRow :=
  db.categories.find? (fun c => c.id == id)

/-- `SELECT path FROM resources WHERE id = $1` (first row). -/
def findResource (db : Db) (id : Nat) : Option ResourceRow :=
  db.resources.find? (fun r => r.id == id)

/-- Whether a `users` row with this id exists (foreign-key target). -/
def userExists (db : Db) (uid : Nat) : Bool :=
  db.users.any (fun u => u.id == uid)

/-- Whether a `categories` row with this id exists (foreign-key target). -/
def categoryExists (db : Db) (cid : Nat) : Bool :=
  db.categories.any (fun c => c.id == cid)

/-- Whether some resource references this category (blocks its deletion). -/
def categoryHasDependents (db : Db) (cid : Nat) : Bool :=
  db.resources.any (fun r => r.category_id == cid)

/-- Whether some resource references this user (blocks their deletion). -/
def userHasDependents (db : Db) (uid : Nat) : Bool :=
  db.resources.any (fun r => r.user_id == uid)

/-- Fresh id for a resource insert (serial column). -/
def nextResourceId (db : Db) : Nat :=
  (db.resources.map (fun r => r.id)).foldr max 0 + 1

/-- Fresh id for a category insert (serial column). -/
def nextCategoryId (db : Db) : Nat :=
  (db.categories.map (fun c => c.id)).foldr max 0 + 1

/-- Fresh id for a user insert (serial column). -/
def nextUserId (db : Db) : Nat :=
  (db.users.map (fun u => u.id)).foldr max 0 + 1

/-- `INSERT INTO resources (filename, path, user_id, category_id)`:
fails with SQLSTATE 23503 when the referenced user or category is
missing. -/
def insertResource (db : Db) (fn pa : String) (uid cid : Nat) :
    Except DbErr (Db × ResourceRow) :=
  if db.userExists uid && db.categoryExists cid then
    let row : ResourceRow :=
      { id := db.nextResourceId, filename := fn, path := pa,
        user_id := uid, category_id := cid }
    .ok ({ db with resources := db.resources ++ [row] }, row)
  else
    .error .fkViolation

/-- `UPDATE users SET username=$1, email=$2, password=$3 WHERE id=$4`:
fails with 23505 when another row already holds the new username. -/
def updateUser (db : Db) (id : Nat) (nu ne np : String) : Except DbErr Db :=
  if db.users.any (fun v => v.id != id && v.username == nu) then
    .error .uniqueViolation
  else
    .ok { db with
          users := db.users.map (fun v =>
            if v.id == id then
              { v with username := nu, email := ne, password := np }
            else v) }

/-- Apply the dynamically-built
`UPDATE resources SET <supplied fields> WHERE id = $n` to one row. -/
def applyResourceFields (r : ResourceRow) (fn pa : Option String)
    (uid cid : Option Nat) : ResourceRow :=
  { r with
    filename := fn.getD r.filename
    path := pa.getD r.path
    user_id := uid.getD r.user_id
    category_id := cid.getD r.category_id }

/-- The dynamic `UPDATE resources` query.  The raw body strings for
`user_id` / `category_id` go straight into the SQL: a non-integer value
raises a database error (not 23503), an integer referencing a missing
row raises 23503. -/
def updateResource (db : Db) (id : Nat) (fn pa : Option String)
    (uid cid : Option String) : Except DbErr Db :=
  let parsed : Option String → Except DbErr (Option Nat) := fun v =>
    match v with
    | none => .ok none
    | some s =>
      match decimalNat? s with
      | none => .error .badInput
      | some n => .ok (some n)
  match parsed uid, parsed cid with
  | .error e, _ => .error e
  | _, .error e => .error e
  | .ok uidN, .ok cidN =>
    if (match uidN with | some n => !db.userExists n | none => false) then
      .error .fkViolation
    else if (match cidN with
             | some n => !db.categoryExists n | none => false) then
      .error .fkViolation
    else
      .ok { db with
            resources := db.resources.map (fun r =>
              if r.id == id then applyResourceFields r fn pa uidN cidN
              else r) }

/-- `DELETE FROM categories WHERE id=$1`: 23503 when dependents exist,
otherwise the removed row count. -/
def deleteCategoryRow (db : Db) (id : Nat) : Except DbErr (Db × Nat) :=
  if db.categoryExists id then
    if db.categoryHasDependents id then .error .fkViolation
    else
      .ok ({ db with
             categories := db.categories.filter (fun c => c.id != id) }, 1)
  else .ok (db, 0)

/-- `DELETE FROM users WHERE id=$1`: 23503 when dependents exist. -/
def deleteUserRow (db : Db) (id : Nat) : Except DbErr (Db × Nat) :=
  if db.userExists id then
    if db.userHasDependents id then .error .fkViolation
    else .ok ({ db with users := db.users.filter (fun u => u.id != id) }, 1)
  else .ok (db, 0)

/-- `DELETE FROM resources WHERE id=$1` (nothing references resources,
so it cannot fail). -/
def deleteResourceRow (db : Db) (id : Nat) : Db × Nat :=
  if db.resources.any (fun r => r.id == id) then
    ({ db with resources := db.resources.filter (fun r => r.id != id) }, 1)
  else (db, 0)

/-- Erase the log column (used to compare database outcomes while
ignoring the audit log). -/
def dropLogs (db : Db) : Db :=
  { db with logs := [] }

end Db

/-- `INSERT INTO logs (action) VALUES ($1)`, which can fail like any
other query. -/
def dbInsertLog (logOk : Bool) (db : Db) (action : String) :
    Except String Db :=
  if logOk then .ok { db with logs := db.logs ++ [action] }
  else .error "log insert failed"

/-- `logAction` from `src/index.js`: try the insert, and on failure only
`console.error` — the error never escapes. -/
def logAction (logOk : Bool) (db : Db) (action : String) : Db :=
  match dbInsertLog logOk db action with
  | .ok db2 => db2
  | .error _ => db

/-- The bucket base of the public URL built by the handlers. -/
def bucketUrlBase : String :=
  "https://storage.googleapis.com/portal-media-bucket-123/"

/-- `filename.replace(/ /g, "_")`. -/
def sanitizeName (s : String) : String :=
  ⟨s.data.map (fun c => if c = ' ' then '_' else c)⟩

/-- The GCS object name chosen for an upload:
`` `${Date.now()}-${filename.replace(/ /g, "_")}` ``. -/
def blobNameOf (now : Nat) (originalname : String) : String :=
  toString now ++ "-" ++ sanitizeName originalname

/-- Scan for the segment after the final `/` (accumulator holds the
current segment reversed). -/
def lastSegAux : List Char → List Char → List Char
  | [], acc => acc.reverse
  | c :: cs, acc => if c = '/' then lastSegAux cs [] else lastSegAux cs (c :: acc)

/-- `path.split('/').pop()`: the last `/`-separated segment of the
stored locator, used as the bucket object name on delete. -/
def lastSegment (p : String) : String :=
  ⟨lastSegAux p.data []⟩

/-- A multipart file payload (`req.file`): only the original client
filename matters to the handlers' logic. -/
structure FilePayload where
  originalname : String
deriving Repr, DecidableEq

/-- Best-effort GCS delete of the object named by a stored locator:
the attempt's failure (`deleteOk = false`, or the object being absent,
which makes `file().delete()` throw 404) is caught by the handler. -/
def gcsDeleteByPath (env : Env) (storage : List String) (p : String) :
    List String :=
  if env.deleteOk then storage.erase (lastSegment p) else storage

/-- Projection returned by `GET /api/users`
(`SELECT id, username, email FROM users`). -/
structure PublicUser where
  id : Nat
  username : String
  email : String
deriving Repr, DecidableEq

/-- Keep a body field only when it is JavaScript-truthy (the
`if (field) { fields.push(...) }` pattern). -/
def truthyOpt (v : Option String) : Option String :=
  if jsTruthy v then v else none

/-- First validation message of `POST /api/resources`
(`errors.array()[0].msg`, validators in registration order). -/
def firstResourceError (user_id category_id : Option String) :
    Option String :=
  if !posIntOk user_id then
    some "El ID de usuario debe ser un entero positivo."
  else if !posIntOk category_id then
    some "El ID de categoría debe ser un entero positivo."
  else none

/-- The column projection of `SELECT id, username, email`. -/
def publicProjection (u : UserRow) : PublicUser :=
  { id := u.id, username := u.username, email := u.email }

/-- `GET /api/users`
(`SELECT id, username, email FROM users ORDER BY username ASC`): the
password column is never selected; the result set is ordered by
username. -/
def getUsers (db : Db) : HttpResponse × List PublicUser :=
  ({ status := 200, message := "" },
   List.insertionSort (fun a b => a.username ≤ b.username)
     (db.users.map publicProjection))

/-- `POST /api/resources` (`src/index.js` lines 246-303): validate,
require a file, upload to GCS, insert the row, log, respond. -/
def postResources (env : Env) (db : Db) (storage : List String)
    (file : Option FilePayload) (user_id category_id : Option String) :
    ResResult :=
  match firstResourceError user_id category_id with
  | some msg => ⟨{ status := 400, message := msg }, db, storage⟩
  | none =>
    match file with
    | none =>
      ⟨{ status := 400, message := "No se ha subido ningún archivo." },
       db, storage⟩
    | some f =>
      if env.uploadOk then
        let blobName := blobNameOf env.now f.originalname
        let storage1 := storage ++ [blobName]
        let publicUrl := bucketUrlBase ++ blobName
        match db.insertResource f.originalname publicUrl
            (parseIntField user_id) (parseIntField category_id) with
        | .error .fkViolation =>
          ⟨{ status := 400,
             message := "El usuario o la categoría especificada no existe." },
           db, storage1⟩
        | .error _ =>
          ⟨{ status := 500, message := "Error interno del servidor." },
           db, storage1⟩
        | .ok (db1, _row) =>
          let db2 := logAction env.logOk db1
            ("Recurso creado: " ++ f.originalname)
          ⟨{ status := 201, message := "Recurso creado con éxito" },
           db2, storage1⟩
      else
        -- the write stream errors; the rejection carries no `.code`,
        -- so the catch falls through to the generic 500
        ⟨{ status := 500, message := "Error interno del servidor." },
         db, storage⟩

/-- `PUT /api/resources/:id` (`src/index.js` lines 305-372): look up the
old locator, optionally upload a replacement and best-effort-delete the
old object, then apply the dynamically-built partial update. -/
def putResources (env : Env) (db : Db) (storage : List String) (id : Nat)
    (file : Option FilePayload) (user_id category_id : Option String) :
    ResResult :=
  match db.findResource id with
  | none =>
    ⟨{ status := 404, message := "Recurso no encontrado." }, db, storage⟩
  | some oldRes =>
    let oldPath := oldRes.path
    match file with
    | some f =>
      if env.uploadOk then
        let blobName := blobNameOf env.now f.originalname
        let storage1 := storage ++ [blobName]
        let newPath := bucketUrlBase ++ blobName
        let storage2 :=
          if oldPath ≠ "" then gcsDeleteByPath env storage1 oldPath
          else storage1
        let fnOpt := truthyOpt (some f.originalname)
        let paOpt := truthyOpt (some newPath)
        -- with a file present `newPath` is truthy, so fields is nonempty
        match db.updateResource id fnOpt paOpt
            (truthyOpt user_id) (truthyOpt category_id) with
        | .error _ =>
          ⟨{ status := 500, message := "Error interno del servidor." },
           db, storage2⟩
        | .ok db1 =>
          let db2 := logAction env.logOk db1
            ("Recurso actualizado con ID: " ++ toString id)
          ⟨{ status := 200, message := "Recurso actualizado con éxito" },
           db2, storage2⟩
      else
        ⟨{ status := 500, message := "Error interno del servidor." },
         db, storage⟩
    | none =>
      if jsTruthy user_id || jsTruthy category_id then
        match db.updateResource id none none
            (truthyOpt user_id) (truthyOpt category_id) with
        | .error _ =>
          ⟨{ status := 500, message := "Error interno del servidor." },
           db, storage⟩
        | .ok db1 =>
          let db2 := logAction env.logOk db1
            ("Recurso actualizado con ID: " ++ toString id)
          ⟨{ status := 200, message := "Recurso actualizado con éxito" },
           db2, storage⟩
      else
        ⟨{ status := 400, message := "No hay campos para actualizar." },
         db, storage⟩

/-- `DELETE /api/resources/:id` (`src/index.js` lines 374-404):
best-effort GCS delete of the stored object, then delete the row. -/
def deleteResources (env : Env) (db : Db) (storage : List String)
    (id : Nat) : ResResult :=
  match db.findResource id with
  | some r =>
    let storage1 :=
      if r.path ≠ "" then gcsDeleteByPath env storage r.path else storage
    let (db1, _) := db.deleteResourceRow id
    let db2 := logAction env.logOk db1
      ("Recurso eliminado con ID: " ++ toString id)
    ⟨{ status := 200, message := "Recurso eliminado con éxito" },
     db2, storage1⟩
  | none =>
    -- SELECT found nothing, so no GCS action; DELETE affects 0 rows
    ⟨{ status := 404, message := "Recurso no encontrado." }, db, storage⟩

/-- `POST /api/categories` (`src/index.js` lines 70-87): `name` must be
non-empty (checked on the raw value, then the `trim` sanitizer runs). -/
def postCategories (env : Env) (db : Db) (name : Option String) :
    DbResult :=
  match name with
  | none => ⟨{ status := 400, message := "El nombre es obligatorio." }, db⟩
  | some raw =>
    if raw = "" then
      ⟨{ status := 400, message := "El nombre es obligatorio." }, db⟩
    else
      let n := strTrim raw
      let row : CategoryRow := { id := db.nextCategoryId, name := n }
      let db1 := { db with categories := db.categories ++ [row] }
      let db2 := logAction env.logOk db1 ("Categoría creada: " ++ n)
      ⟨{ status := 201, message := "Categoría creada con éxito" }, db2⟩

/-- `PUT /api/categories/:id` (`src/index.js` lines 89-110). -/
def putCategories (env : Env) (db : Db) (id : Nat) (name : Option String) :
    DbResult :=
  match name with
  | none => ⟨{ status := 400, message := "El nombre es obligatorio." }, db⟩
  | some raw =>
    if raw = "" then
      ⟨{ status := 400, message := "El nombre es obligatorio." }, db⟩
    else
      let n := strTrim raw
      if db.categoryExists id then
        let db1 := { db with
          categories := db.categories.map (fun c =>
            if c.id == id then { c with name := n } else c) }
        let db2 := logAction env.logOk db1
          ("Categoría actualizada con ID: " ++ toString id)
        ⟨{ status := 200, message := "Categoría actualizada con éxito" },
         db2⟩
      else
        ⟨{ status := 404, message := "Categoría no encontrada." }, db⟩

/-- `DELETE /api/categories/:id` (`src/index.js` lines 112-128): the
foreign-key error code 23503 becomes a 400, anything else a 500. -/
def deleteCategories (env : Env) (db : Db) (id : Nat) : DbResult :=
  match db.deleteCategoryRow id with
  | .ok (_, 0) =>
    ⟨{ status := 404, message := "Categoría no encontrada." }, db⟩
  | .ok (db1, _) =>
    let db2 := logAction env.logOk db1
      ("Categoría eliminada con ID: " ++ toString id)
    ⟨{ status := 200, message := "Categoría eliminada con éxito" }, db2⟩
  | .error .fkViolation =>
    ⟨{ status := 400,
       message :=
         "No se puede eliminar la categoría porque tiene recursos asociados." },
     db⟩
  | .error _ =>
    ⟨{ status := 500, message := "Error interno del servidor." }, db⟩

/-- First validation message of `POST /api/users` (username, email,
password validators in registration order;
`validator.isEmail` is external, abstracted in `Env`). -/
def firstUserError (env : Env)
    (username email password : Option String) : Option String :=
  if username.getD "" = "" then
    some "El nombre de usuario es obligatorio."
  else if !(env.isEmail (email.getD "")) then
    some "El email no es válido."
  else if (password.getD "").length < 6 then
    some "La contraseña debe tener al menos 6 caracteres."
  else none

/-- `POST /api/users` (`src/index.js` lines 142-171): validate, hash the
password with bcrypt, insert; a 23505 duplicate username becomes 400. -/
def postUsers (env : Env) (db : Db)
    (username email password : Option String) : DbResult :=
  match firstUserError env username email password with
  | some msg => ⟨{ status := 400, message := msg }, db⟩
  | none =>
    let un := username.getD ""
    let em := email.getD ""
    let hashed := env.bcryptHash (password.getD "")
    if db.users.any (fun u => u.username == un) then
      ⟨{ status := 400, message := "El nombre de usuario ya está en uso." },
       db⟩
    else
      let row : UserRow :=
        { id := db.nextUserId, username := un, email := em,
          password := hashed }
      let db1 := { db with users := db.users ++ [row] }
      let db2 := logAction env.logOk db1 ("Nuevo usuario creado: " ++ un)
      ⟨{ status := 201, message := "Usuario creado con éxito" }, db2⟩

/-- `PUT /api/users/:id` (`src/index.js` lines 173-208): read the current
row, coalesce each field with `||`, rehash only when a password was
supplied (truthy), then write all three columns back. -/
def putUsers (env : Env) (db : Db) (id : Nat)
    (username email password : Option String) : DbResult :=
  match db.findUser id with
  | none => ⟨{ status := 404, message := "Usuario no encontrado." }, db⟩
  | some user =>
    let newUsername := jsOr username user.username
    let newEmail := jsOr email user.email
    let newPassword :=
      if jsTruthy password then env.bcryptHash (password.getD "")
      else user.password
    match db.updateUser id newUsername newEmail newPassword with
    | .error .uniqueViolation =>
      ⟨{ status := 400,
         message := "El nombre de usuario ya está en uso por otra cuenta." },
       db⟩
    | .error _ =>
      ⟨{ status := 500, message := "Error interno del servidor." }, db⟩
    | .ok db1 =>
      let db2 := logAction env.logOk db1
        ("Usuario actualizado con ID: " ++ toString id)
      ⟨{ status := 200, message := "Usuario actualizado con éxito" }, db2⟩

/-- `DELETE /api/users/:id` (`src/index.js` lines 210-226). -/
def deleteUsers (env : Env) (db : Db) (id : Nat) : DbResult :=
  match db.deleteUserRow id with
  | .ok (_, 0) =>
    ⟨{ status := 404, message := "Usuario no encontrado." }, db⟩
  | .ok (db1, _) =>
    let db2 := logAction env.logOk db1
      ("Usuario eliminado con ID: " ++ toString id)
    ⟨{ status := 200, message := "Usuario eliminado con éxito" }, db2⟩
  | .error .fkViolation =>
    ⟨{ status := 400,
       message :=
         "No se puede eliminar el usuario porque tiene recursos asociados." },
     db⟩
  | .error _ =>
    ⟨{ status := 500, message := "Error interno del servidor." }, db⟩

/-- A sample request environment: every external call succeeds. -/
def sampleEnv : Env where
  uploadOk := true
  deleteOk := true
  logOk := true
  now := 5
  bcryptHash := fun s => s ++ "#hashed"
  isEmail := fun s => s.any (fun c => c = '@')

/-- A sample user row. -/
def sampleUser : UserRow :=
  ⟨1, "ana", "ana@mail.com", "hash1"⟩

/-- A sample category row. -/
def sampleCategory : CategoryRow :=
  ⟨1, "docs"⟩

/-- A sample resource row owned by `sampleUser` in `sampleCategory`. -/
def sampleResource : ResourceRow :=
  ⟨1, "f.txt",
   "https://storage.googleapis.com/portal-media-bucket-123/10-f.txt", 1, 1⟩

/-- A sample database with one row per entity. -/
def sampleDb : Db :=
  ⟨[sampleUser], [sampleCategory], [sampleResource], []⟩

/-- The bucket content matching `sampleDb`. -/
def sampleStorage : List String :=
  ["10-f.txt"]

/-- A well-formedness condition on a foreign-key body field: if it is
supplied and truthy, it is a decimal integer referencing an existing
row (`check` is `Db.userExists` or `Db.categoryExists`). -/
def refFieldOk (check : Nat → Bool) (v : Option String) : Prop :=
  ∀ s, v = some s → s ≠ "" → ∃ n, decimalNat? s = some n ∧ check n = true

/-- The numeric value a truthy foreign-key field contributes to the
dynamic update (none when absent or empty). -/
def natField (v : Option String) : Option Nat :=
  (truthyOpt v).bind decimalNat?

theorem logAction_users (b : Bool) (db : Db) (a : String) :
    (logAction b db a).users = db.users := by
  cases b <;> rfl

theorem logAction_categories (b : Bool) (db : Db) (a : String) :
    (logAction b db a).categories = db.categories := by
  cases b <;> rfl

theorem logAction_resources (b : Bool) (db : Db) (a : String) :
    (logAction b db a).resources = db.resources := by
  cases b <;> rfl

theorem dropLogs_logAction (b : Bool) (db : Db) (a : String) :
    (logAction b db a).dropLogs = db.dropLogs := by
  cases b <;> rfl

/-- `find?` commutes with an id-targeted row rewrite. -/
theorem findMapIf {α : Type} (l : List α) (p : α → Bool) (g : α → α)
    (hg : ∀ v, p (g v) = p v) :
    (l.map (fun v => if p v then g v else v)).find? p = (l.find? p).map g := by
  induction l with
  | nil => rfl
  | cons x xs ih =>
    by_cases hx : p x
    · simp [List.find?_cons, hx, hg]
    · simp [List.find?_cons, hx, ih]

/-- C1: on `POST /api/resources` passing validation with a file attached,
the GCS upload precedes the insert: a failed upload yields a 500 response
with the database and bucket untouched, and any run that did insert a row
has the uploaded object present in the bucket. -/
theorem postResources_upload_before_insert (env : Env) (db : Db)
    (storage : List String) (f : FilePayload)
    (user_id category_id : Option String)
    (hval : firstResourceError user_id category_id = none) :
    (env.uploadOk = false →
      postResources env db storage (some f) user_id category_id =
        ⟨⟨500, "Error interno del servidor."⟩, db, storage⟩) ∧
    ((postResources env db storage (some f) user_id category_id).db.resources
        ≠ db.resources →
      blobNameOf env.now f.originalname ∈
        (postResources env db storage (some f) user_id category_id).storage) := by
  constructor
  · intro hup
    simp [postResources, hval, hup]
  · intro hne
    by_cases hup : env.uploadOk
    · simp only [postResources, hval, hup, if_true] at hne ⊢
      split at hne
      · exact absurd rfl hne
      · exact absurd rfl hne
      · rename_i heq
        simp only [heq]
        simp [List.mem_append]
    · simp [postResources, hval, hup] at hne

theorem postResources_upload_before_insert_witness :
    postResources { sampleEnv with uploadOk := false } sampleDb sampleStorage
        (some ⟨"g.txt"⟩) (some "1") (some "1") =
      ⟨⟨500, "Error interno del servidor."⟩, sampleDb, sampleStorage⟩ :=
  (postResources_upload_before_insert { sampleEnv with uploadOk := false }
    sampleDb sampleStorage ⟨"g.txt"⟩ (some "1") (some "1") (by rfl)).1 rfl

/-- C3 counterexample: a `POST /api/resources` request with no file but an
invalid `user_id` is answered with the validation message, not the
"no file uploaded" message. -/
theorem postResources_nofile_cex :
    (postResources sampleEnv sampleDb sampleStorage none
        (some "abc") (some "1")).resp =
      ⟨400, "El ID de usuario debe ser un entero positivo."⟩ ∧
    (postResources sampleEnv sampleDb sampleStorage none
        (some "abc") (some "1")).resp.message ≠
      "No se ha subido ningún archivo." := by
  constructor
  · rfl
  · rw [show (postResources sampleEnv sampleDb sampleStorage none
        (some "abc") (some "1")).resp.message =
        "El ID de usuario debe ser un entero positivo." from by rfl]
    decide

/-- C3 (amended): every fileless `POST /api/resources` request gets a 400
with no database row created and no storage write; the message is the
"no file uploaded" one exactly when the other fields pass validation. -/
theorem postResources_nofile (env : Env) (db : Db) (storage : List String)
    (user_id category_id : Option String) :
    (postResources env db storage none user_id category_id).resp.status
        = 400 ∧
    (postResources env db storage none user_id category_id).db = db ∧
    (postResources env db storage none user_id category_id).storage
        = storage ∧
    (firstResourceError user_id category_id = none →
      (postResources env db storage none user_id category_id).resp.message =
        "No se ha subido ningún archivo.") := by
  cases h : firstResourceError user_id category_id <;>
    simp [postResources, h]

theorem postResources_nofile_witness :
    (postResources sampleEnv sampleDb sampleStorage none
        (some "1") (some "1")).resp.status = 400 ∧
    (postResources sampleEnv sampleDb sampleStorage none
        (some "1") (some "1")).resp.message =
      "No se ha subido ningún archivo." :=
  ⟨(postResources_nofile sampleEnv sampleDb sampleStorage
      (some "1") (some "1")).1,
   (postResources_nofile sampleEnv sampleDb sampleStorage
      (some "1") (some "1")).2.2.2 (by rfl)⟩

/-- C7: deleting a category or user that still has resources referencing
it yields a 400 with the has-dependents message and leaves the database
(in particular the targeted row) intact. -/
theorem delete_with_dependents_blocked (env : Env) (db : Db) (id : Nat) :
    (db.categoryExists id = true → db.categoryHasDependents id = true →
      deleteCategories env db id =
        ⟨⟨400,
          "No se puede eliminar la categoría porque tiene recursos asociados."⟩,
         db⟩) ∧
    (db.userExists id = true → db.userHasDependents id = true →
      deleteUsers env db id =
        ⟨⟨400,
          "No se puede eliminar el usuario porque tiene recursos asociados."⟩,
         db⟩) := by
  constructor
  · intro h1 h2
    simp [deleteCategories, Db.deleteCategoryRow, h1, h2]
  · intro h1 h2
    simp [deleteUsers, Db.deleteUserRow, h1, h2]

theorem delete_with_dependents_blocked_witness :
    deleteCategories sampleEnv sampleDb 1 =
      ⟨⟨400,
        "No se puede eliminar la categoría porque tiene recursos asociados."⟩,
       sampleDb⟩ ∧
    deleteUsers sampleEnv sampleDb 1 =
      ⟨⟨400,
        "No se puede eliminar el usuario porque tiene recursos asociados."⟩,
       sampleDb⟩ :=
  ⟨(delete_with_dependents_blocked sampleEnv sampleDb 1).1 (by rfl) (by rfl),
   (delete_with_dependents_blocked sampleEnv sampleDb 1).2 (by rfl) (by rfl)⟩

/-- C9: `GET /api/users` answers 200 with exactly the user rows projected
to id/username/email (a permutation of the projections, ordered by
username), and the response is unchanged under any rewrite of the stored
passwords: the password column is excluded. -/
theorem getUsers_excludes_password (db : Db) :
    (getUsers db).1 = ⟨200, ""⟩ ∧
    ((getUsers db).2).Perm (db.users.map publicProjection) ∧
    (∀ f : Nat → String,
      getUsers
        { db with users :=
            db.users.map (fun u => { u with password := f u.id }) } =
      getUsers db) := by
  refine ⟨rfl, List.perm_insertionSort _ _, ?_⟩
  intro f
  simp only [getUsers, List.map_map]
  rfl

theorem updateResource_db (db : Db) (id : Nat) (fn pa uidS cidS : Option String) :
    (∃ e, db.updateResource id fn pa uidS cidS = .error e) ∨
    db.updateResource id fn pa uidS cidS =
      .ok { db with resources := db.resources.map (fun r =>
        if r.id == id then
          Db.applyResourceFields r fn pa
            (uidS.bind decimalNat?) (cidS.bind decimalNat?)
        else r) } := by
  unfold Db.updateResource
  rcases uidS with _ | s
  · rcases cidS with _ | t
    · right; simp
    · rcases hdt : decimalNat? t with _ | m
      · left; exact ⟨.badInput, by simp [hdt]⟩
      · by_cases hm : db.categoryExists m
        · right; simp [hdt, hm]
        · left; exact ⟨.fkViolation, by simp [hdt, hm]⟩
  · rcases hds : decimalNat? s with _ | n
    · left; exact ⟨.badInput, by simp [hds]⟩
    · by_cases hn : db.userExists n
      · rcases cidS with _ | t
        · right; simp [hds, hn]
        · rcases hdt : decimalNat? t with _ | m
          · left; exact ⟨.badInput, by simp [hds, hdt]⟩
          · by_cases hm : db.categoryExists m
            · right; simp [hds, hdt, hn, hm]
            · left; exact ⟨.fkViolation, by simp [hds, hdt, hn, hm]⟩
      · rcases cidS with _ | t
        · left; exact ⟨.fkViolation, by simp [hds, hn]⟩
        · rcases hdt : decimalNat? t with _ | m
          · left; exact ⟨.badInput, by simp [hds, hdt]⟩
          · left; exact ⟨.fkViolation, by simp [hds, hdt, hn]⟩

theorem updateResource_find (db : Db) (id : Nat)
    (fn pa uidS cidS : Option String) (db1 : Db)
    (h : db.updateResource id fn pa uidS cidS = .ok db1)
    (r : ResourceRow) (hr : db.findResource id = some r) :
    db1.findResource id =
      some (Db.applyResourceFields r fn pa
        (uidS.bind decimalNat?) (cidS.bind decimalNat?)) ∧
    db1.users = db.users ∧ db1.categories = db.categories := by
  rcases updateResource_db db id fn pa uidS cidS with ⟨e, he⟩ | hok
  · rw [he] at h; cases h
  · rw [hok] at h
    injection h with h1
    subst h1
    refine ⟨?_, rfl, rfl⟩
    unfold Db.findResource at hr ⊢
    rw [findMapIf db.resources (fun r => r.id == id)
      (fun r => Db.applyResourceFields r fn pa
        (uidS.bind decimalNat?) (cidS.bind decimalNat?)) (fun v => rfl), hr]
    rfl

theorem updateUser_db (db : Db) (id : Nat) (nu ne np : String) :
    db.updateUser id nu ne np = .error .uniqueViolation ∨
    db.updateUser id nu ne np =
      .ok { db with users := db.users.map (fun v =>
        if v.id == id then
          { v with username := nu, email := ne, password := np }
        else v) } := by
  unfold Db.updateUser
  by_cases hc : db.users.any (fun v => v.id != id && v.username == nu)
  · left; simp [hc]
  · right; simp [hc]

theorem putUsers_retains (env : Env) (db : Db) (id : Nat)
    (username email password : Option String) (u : UserRow)
    (hu : db.findUser id = some u) :
    ∃ v, (putUsers env db id username email password).db.findUser id
        = some v ∧
      (username = none → v.username = u.username) ∧
      (email = none → v.email = u.email) ∧
      (password = none → v.password = u.password) := by
simp only [putUsers, hu]
rcases updateUser_db db id (jsOr username u.username)
    (jsOr email u.email)
    (if jsTruthy password then env.bcryptHash (password.getD "")
     else u.password) with herr | hok
· simp only [herr]
  exact ⟨u, hu, fun _ => rfl, fun _ => rfl, fun _ => rfl⟩
· simp only [hok]
  refine ⟨{ u with
      username := jsOr username u.username
      email := jsOr email u.email
      password :=
        if jsTruthy password then env.bcryptHash (password.getD "")
        else u.password }, ?_, ?_, ?_, ?_⟩
  · have hu' : db.users.find? (fun v => v.id == id) = some u := hu
    simp only [Db.findUser, logAction_users]
    rw [findMapIf db.users (fun v => v.id == id)
      (fun v => { v with
        username := jsOr username u.username
        email := jsOr email u.email
        password :=
          if jsTruthy password then env.bcryptHash (password.getD "")
          else u.password })
      (fun v => rfl), hu']
    rfl
  · intro h; subst h; rfl
  · intro h; subst h; rfl
  · intro h; subst h; rfl

theorem putResources_retains (env : Env) (db : Db) (storage : List String)
    (id : Nat) (file : Option FilePayload)
    (user_id category_id : Option String) (r : ResourceRow)
    (hr : db.findResource id = some r) :
    ∃ v,
      (putResources env db storage id file user_id
          category_id).db.findResource id = some v ∧
      (file = none → v.filename = r.filename ∧ v.path = r.path) ∧
      (user_id = none → v.user_id = r.user_id) ∧
      (category_id = none → v.category_id = r.category_id) := by
have hr' : db.resources.find? (fun x => x.id == id) = some r := hr
rcases file with _ | f
· simp only [putResources, hr]
  by_cases hft : (jsTruthy user_id || jsTruthy category_id) = true
  · simp only [hft, if_true]
    rcases updateResource_db db id none none
        (truthyOpt user_id) (truthyOpt category_id) with ⟨e, he⟩ | hok
    · simp only [he]
      exact ⟨r, hr, fun _ => ⟨rfl, rfl⟩, fun _ => rfl, fun _ => rfl⟩
    · simp only [hok]
      refine ⟨Db.applyResourceFields r none none
          ((truthyOpt user_id).bind decimalNat?)
          ((truthyOpt category_id).bind decimalNat?), ?_, ?_, ?_, ?_⟩
      · simp only [Db.findResource, logAction_resources]
        rw [findMapIf db.resources (fun x => x.id == id)
          (fun x => Db.applyResourceFields x none none
            ((truthyOpt user_id).bind decimalNat?)
            ((truthyOpt category_id).bind decimalNat?))
          (fun v => rfl), hr']
        rfl
      · intro _; exact ⟨rfl, rfl⟩
      · intro h; subst h; rfl
      · intro h; subst h; rfl
  · simp only [hft, if_false]
    exact ⟨r, hr, fun _ => ⟨rfl, rfl⟩, fun _ => rfl, fun _ => rfl⟩
· simp only [putResources, hr]
  by_cases hup : env.uploadOk = true
  · simp only [hup, if_true]
    rcases updateResource_db db id (truthyOpt (some f.originalname))
        (truthyOpt (some (bucketUrlBase ++
          blobNameOf env.now f.originalname)))
        (truthyOpt user_id) (truthyOpt category_id) with ⟨e, he⟩ | hok
    · simp only [he]
      exact ⟨r, hr, fun h => absurd h (Option.some_ne_none f), fun _ => rfl, fun _ => rfl⟩
    · simp only [hok]
      refine ⟨Db.applyResourceFields r (truthyOpt (some f.originalname))
          (truthyOpt (some (bucketUrlBase ++
            blobNameOf env.now f.originalname)))
          ((truthyOpt user_id).bind decimalNat?)
          ((truthyOpt category_id).bind decimalNat?), ?_, ?_, ?_, ?_⟩
      · simp only [Db.findResource, logAction_resources]
        rw [findMapIf db.resources (fun x => x.id == id)
          (fun x => Db.applyResourceFields x
            (truthyOpt (some f.originalname))
            (truthyOpt (some (bucketUrlBase ++
              blobNameOf env.now f.originalname)))
            ((truthyOpt user_id).bind decimalNat?)
            ((truthyOpt category_id).bind decimalNat?))
          (fun v => rfl), hr']
        rfl
      · intro h; exact absurd h (Option.some_ne_none f)
      · intro h; subst h; rfl
      · intro h; subst h; rfl
  · simp only [hup, if_false]
    exact ⟨r, hr, fun h => absurd h (Option.some_ne_none f), fun _ => rfl, fun _ => rfl⟩

/-- C2: both PUT handlers follow the coalesce policy: after any
`PUT /api/users/:id` or `PUT /api/resources/:id` on an existing row, each
field whose request value was absent still holds its prior stored
value (so a field is replaced only when it was supplied). -/
theorem put_coalesce_policy :
    (∀ (env : Env) (db : Db) (id : Nat)
       (username email password : Option String) (u : UserRow),
      db.findUser id = some u →
      ∃ v, (putUsers env db id username email password).db.findUser id
          = some v ∧
        (username = none → v.username = u.username) ∧
        (email = none → v.email = u.email) ∧
        (password = none → v.password = u.password)) ∧
    (∀ (env : Env) (db : Db) (storage : List String) (id : Nat)
       (file : Option FilePayload) (user_id category_id : Option String)
       (r : ResourceRow),
      db.findResource id = some r →
      ∃ v,
        (putResources env db storage id file user_id
            category_id).db.findResource id = some v ∧
        (file = none → v.filename = r.filename ∧ v.path = r.path) ∧
        (user_id = none → v.user_id = r.user_id) ∧
        (category_id = none → v.category_id = r.category_id)) :=
  ⟨fun env db id username email password u hu =>
    putUsers_retains env db id username email password u hu,
   fun env db storage id file user_id category_id r hr =>
    putResources_retains env db storage id file user_id category_id r hr⟩

theorem put_coalesce_policy_witness :
    ∃ v, (putUsers sampleEnv sampleDb 1 (some "bob") none none).db.findUser 1
        = some v ∧
      ((some "bob" : Option String) = none → v.username = sampleUser.username) ∧
      ((none : Option String) = none → v.email = sampleUser.email) ∧
      ((none : Option String) = none → v.password = sampleUser.password) :=
  put_coalesce_policy.1 sampleEnv sampleDb 1 (some "bob") none none
    sampleUser (by rfl)

/-- C10: in `PUT /api/users/:id` an empty-string field is
indistinguishable from an omitted one — the `||` coalescing keeps the
prior value and the handler result is identical — and an empty-string
password triggers no rehash: the stored hash survives. -/
theorem putUsers_empty_string_like_omitted :
    (∀ (env : Env) (db : Db) (id : Nat) (email password : Option String),
      putUsers env db id (some "") email password =
        putUsers env db id none email password) ∧
    (∀ (env : Env) (db : Db) (id : Nat) (username password : Option String),
      putUsers env db id username (some "") password =
        putUsers env db id username none password) ∧
    (∀ (env : Env) (db : Db) (id : Nat) (username email : Option String),
      putUsers env db id username email (some "") =
        putUsers env db id username email none) ∧
    (∀ (env : Env) (db : Db) (id : Nat) (username email : Option String)
       (u : UserRow), db.findUser id = some u →
      ∃ v, (putUsers env db id username email (some "")).db.findUser id
          = some v ∧ v.password = u.password) := by
  have h3 : ∀ (env : Env) (db : Db) (id : Nat)
      (username email : Option String),
      putUsers env db id username email (some "") =
        putUsers env db id username email none := by
    intro env db id username email
    cases hu : db.findUser id <;> simp [putUsers, hu, jsTruthy]
  refine ⟨?_, ?_, h3, ?_⟩
  · intro env db id email password
    cases hu : db.findUser id <;> simp [putUsers, hu, jsOr]
  · intro env db id username password
    cases hu : db.findUser id <;> simp [putUsers, hu, jsOr]
  · intro env db id username email u hu
    rw [h3]
    rcases putUsers_retains env db id username email none u hu
      with ⟨v, hv, _, _, hp⟩
    exact ⟨v, hv, hp rfl⟩

theorem putUsers_empty_string_like_omitted_witness :
    ∃ v, (putUsers sampleEnv sampleDb 1 none none (some "")).db.findUser 1
        = some v ∧ v.password = sampleUser.password :=
  putUsers_empty_string_like_omitted.2.2.2 sampleEnv sampleDb 1 none none
    sampleUser (by rfl)

theorem updateResource_none_none_ok (db : Db) (id : Nat)
    (fn pa : Option String) :
    db.updateResource id fn pa none none =
      .ok { db with resources := db.resources.map (fun r =>
        if r.id == id then Db.applyResourceFields r fn pa none none
        else r) } := by
  unfold Db.updateResource
  simp

/-- C4: storage cleanup is advisory: the delete attempted on the old
object during a file-replacing `PUT /api/resources/:id` and during
`DELETE /api/resources/:id` never changes the response or the database
outcome (whether or not the GCS delete succeeds), and the handlers still
answer 200 on the happy path. -/
theorem storage_delete_best_effort :
    (∀ (env : Env) (b : Bool) (db : Db) (storage : List String) (id : Nat)
       (file : Option FilePayload) (user_id category_id : Option String),
      (putResources { env with deleteOk := b } db storage id file
          user_id category_id).resp =
        (putResources env db storage id file user_id category_id).resp ∧
      (putResources { env with deleteOk := b } db storage id file
          user_id category_id).db =
        (putResources env db storage id file user_id category_id).db) ∧
    (∀ (env : Env) (b : Bool) (db : Db) (storage : List String) (id : Nat),
      (deleteResources { env with deleteOk := b } db storage id).resp =
        (deleteResources env db storage id).resp ∧
      (deleteResources { env with deleteOk := b } db storage id).db =
        (deleteResources env db storage id).db) ∧
    (∀ (env : Env) (db : Db) (storage : List String) (id : Nat)
       (f : FilePayload) (user_id category_id : Option String)
       (r : ResourceRow),
      db.findResource id = some r → r.path ≠ "" → env.uploadOk = true →
      (putResources env db storage id (some f) user_id
          category_id).storage =
        gcsDeleteByPath env (storage ++ [blobNameOf env.now f.originalname])
          r.path) ∧
    (∀ (env : Env) (db : Db) (storage : List String) (id : Nat)
       (r : ResourceRow),
      db.findResource id = some r → r.path ≠ "" →
      (deleteResources env db storage id).storage =
        gcsDeleteByPath env storage r.path ∧
      (deleteResources env db storage id).resp.status = 200) ∧
    (∀ (env : Env) (db : Db) (storage : List String) (id : Nat)
       (f : FilePayload) (r : ResourceRow),
      db.findResource id = some r → env.uploadOk = true →
      (putResources env db storage id (some f) none none).resp =
        ⟨200, "Recurso actualizado con éxito"⟩) := by
  refine ⟨?_, ?_, ?_, ?_, ?_⟩
  · intro env b db storage id file user_id category_id
    cases hr : db.findResource id with
    | none => simp [putResources, hr]
    | some r =>
      rcases file with _ | f
      · by_cases hft : (jsTruthy user_id || jsTruthy category_id) = true
        · simp only [putResources, hr, hft, if_true]
          rcases updateResource_db db id none none
              (truthyOpt user_id) (truthyOpt category_id) with ⟨e, he⟩ | hok
          · simp [he]
          · simp [hok]
        · simp [putResources, hr, hft]
      · by_cases hup : env.uploadOk = true
        · simp only [putResources, hr, hup, if_true]
          rcases updateResource_db db id (truthyOpt (some f.originalname))
              (truthyOpt (some (bucketUrlBase ++
                blobNameOf env.now f.originalname)))
              (truthyOpt user_id) (truthyOpt category_id) with ⟨e, he⟩ | hok
          · simp [he]
          · simp [hok]
        · simp [putResources, hr, hup]
  · intro env b db storage id
    cases hr : db.findResource id with
    | none => simp [deleteResources, hr]
    | some r => simp [deleteResources, hr]
  · intro env db storage id f user_id category_id r hr hp hup
    simp only [putResources, hr, hup, if_true]
    rcases updateResource_db db id (truthyOpt (some f.originalname))
        (truthyOpt (some (bucketUrlBase ++
          blobNameOf env.now f.originalname)))
        (truthyOpt user_id) (truthyOpt category_id) with ⟨e, he⟩ | hok
    · simp [he, hp]
    · simp [hok, hp]
  · intro env db storage id r hr hp
    simp [deleteResources, hr, hp]
  · intro env db storage id f r hr hup
    simp only [putResources, hr, hup, if_true]
    rw [show truthyOpt (none : Option String) = none from rfl,
      updateResource_none_none_ok]

theorem storage_delete_best_effort_witness :
    (putResources sampleEnv sampleDb sampleStorage 1 (some ⟨"g.txt"⟩)
        none none).resp = ⟨200, "Recurso actualizado con éxito"⟩ ∧
    (deleteResources sampleEnv sampleDb sampleStorage 1).storage =
      gcsDeleteByPath sampleEnv sampleStorage sampleResource.path ∧
    (deleteResources sampleEnv sampleDb sampleStorage 1).resp.status = 200 :=
  ⟨storage_delete_best_effort.2.2.2.2 sampleEnv sampleDb sampleStorage 1
     ⟨"g.txt"⟩ sampleResource (by rfl) rfl,
   (storage_delete_best_effort.2.2.2.1 sampleEnv sampleDb sampleStorage 1
     sampleResource (by rfl) (by decide)).1,
   (storage_delete_best_effort.2.2.2.1 sampleEnv sampleDb sampleStorage 1
     sampleResource (by rfl) (by decide)).2⟩

/-- C5 counterexample: a PUT on an existing resource whose supplied
`user_id` references no user is answered with a generic 500, not the 400
client error the claim requires for updates. -/
theorem resource_fk_violation_cex :
    (putResources sampleEnv sampleDb sampleStorage 1 none (some "99")
        none).resp = ⟨500, "Error interno del servidor."⟩ ∧
    (putResources sampleEnv sampleDb sampleStorage 1 none (some "99")
        none).resp.status ≠ 400 := by
  constructor
  · rfl
  · rw [show (putResources sampleEnv sampleDb sampleStorage 1 none
      (some "99") none).resp.status = 500 from by rfl]
    decide

/-- C5 (amended): the foreign-key violation is translated to a 400 with
a specific message on resource insert, but the `PUT /api/resources/:id`
catch block has no 23503 branch, so on update the same violation yields
the generic 500 (with no row changed and no storage write). -/
theorem resource_fk_violation_translation :
    (∀ (env : Env) (db : Db) (storage : List String) (f : FilePayload)
       (user_id category_id : Option String),
      firstResourceError user_id category_id = none →
      env.uploadOk = true →
      (db.userExists (parseIntField user_id) &&
        db.categoryExists (parseIntField category_id)) = false →
      (postResources env db storage (some f) user_id category_id).resp =
        ⟨400, "El usuario o la categoría especificada no existe."⟩ ∧
      (postResources env db storage (some f) user_id category_id).db
        = db) ∧
    (∀ (env : Env) (db : Db) (storage : List String) (id : Nat)
       (s : String) (n : Nat) (r : ResourceRow),
      db.findResource id = some r → s ≠ "" → decimalNat? s = some n →
      db.userExists n = false →
      (putResources env db storage id none (some s) none).resp =
        ⟨500, "Error interno del servidor."⟩ ∧
      (putResources env db storage id none (some s) none).db = db ∧
      (putResources env db storage id none (some s) none).storage
        = storage) := by
  constructor
  · intro env db storage f user_id category_id hval hup hfk
    simp only [postResources, hval, hup, if_true]
    unfold Db.insertResource
    simp [hfk]
  · intro env db storage id s n r hr hs hds hn
    have hupd : db.updateResource id none none (some s) none =
        .error .fkViolation := by
      unfold Db.updateResource
      simp [hds, hn]
    simp only [putResources, hr]
    rw [show truthyOpt (some s) = some s from by
      simp [truthyOpt, jsTruthy, hs]]
    rw [show truthyOpt (none : Option String) = none from rfl]
    simp [jsTruthy, hs, hupd]

theorem resource_fk_violation_translation_witness :
    ((postResources sampleEnv sampleDb sampleStorage (some ⟨"g.txt"⟩)
        (some "99") (some "1")).resp =
      ⟨400, "El usuario o la categoría especificada no existe."⟩ ∧
     (postResources sampleEnv sampleDb sampleStorage (some ⟨"g.txt"⟩)
        (some "99") (some "1")).db = sampleDb) ∧
    ((putResources sampleEnv sampleDb sampleStorage 1 none (some "99")
        none).resp = ⟨500, "Error interno del servidor."⟩ ∧
     (putResources sampleEnv sampleDb sampleStorage 1 none (some "99")
        none).db = sampleDb ∧
     (putResources sampleEnv sampleDb sampleStorage 1 none (some "99")
        none).storage = sampleStorage) :=
  ⟨resource_fk_violation_translation.1 sampleEnv sampleDb sampleStorage
     ⟨"g.txt"⟩ (some "99") (some "1") (by rfl) rfl (by rfl),
   resource_fk_violation_translation.2 sampleEnv sampleDb sampleStorage 1
     "99" 99 sampleResource (by rfl) (by decide) (by rfl) (by rfl)⟩

theorem truthyOpt_bind_cases (check : Nat → Bool) (v : Option String)
    (h : refFieldOk check v) :
    (truthyOpt v = none ∧ natField v = none) ∨
    (∃ s n, truthyOpt v = some s ∧ decimalNat? s = some n ∧
      check n = true ∧ natField v = some n) := by
  rcases v with _ | s
  · exact .inl ⟨rfl, rfl⟩
  · by_cases hs : s = ""
    · subst hs
      exact .inl ⟨rfl, rfl⟩
    · rcases h s rfl hs with ⟨n, hds, hck⟩
      refine .inr ⟨s, n, ?_, hds, hck, ?_⟩
      · simp [truthyOpt, jsTruthy, hs]
      · simp [natField, truthyOpt, jsTruthy, hs, hds]

theorem updateResource_ok_of_refFieldOk (db : Db) (id : Nat)
    (fn pa : Option String) (user_id category_id : Option String)
    (hu : refFieldOk db.userExists user_id)
    (hc : refFieldOk db.categoryExists category_id) :
    db.updateResource id fn pa (truthyOpt user_id)
        (truthyOpt category_id) =
      .ok { db with resources := db.resources.map (fun x =>
        if x.id == id then
          Db.applyResourceFields x fn pa (natField user_id)
            (natField category_id)
        else x) } := by
  rcases truthyOpt_bind_cases db.userExists user_id hu with
    ⟨ht1, hn1⟩ | ⟨s, n, ht1, hd1, hx1, hn1⟩
  · rcases truthyOpt_bind_cases db.categoryExists category_id hc with
      ⟨ht2, hn2⟩ | ⟨t, m, ht2, hd2, hx2, hn2⟩
    · rw [ht1, ht2, hn1, hn2]
      unfold Db.updateResource
      simp
    · rw [ht1, ht2, hn1, hn2]
      unfold Db.updateResource
      simp [hd2, hx2]
  · rcases truthyOpt_bind_cases db.categoryExists category_id hc with
      ⟨ht2, hn2⟩ | ⟨t, m, ht2, hd2, hx2, hn2⟩
    · rw [ht1, ht2, hn1, hn2]
      unfold Db.updateResource
      simp [hd1, hx1]
    · rw [ht1, ht2, hn1, hn2]
      unfold Db.updateResource
      simp [hd1, hx1, hd2, hx2]

theorem bucketUrl_ne_empty (x : String) : bucketUrlBase ++ x ≠ "" := by
  intro h
  have h2 := congrArg (fun s => s.data) h
  simp only [String.data_append] at h2
  rcases List.append_eq_nil.mp h2 with ⟨h3, _⟩
  exact absurd h3 (by decide)

/-- C6 counterexample: a PUT supplying the empty subset of fields is
answered 400, and one supplying a dangling `user_id` (with a file) is
answered 500 — neither matches the claimed unconditional 200. -/
theorem putResources_subset_cex :
    (putResources sampleEnv sampleDb sampleStorage 1 none none none).resp =
      ⟨400, "No hay campos para actualizar."⟩ ∧
    (putResources sampleEnv sampleDb sampleStorage 1 none none
        none).resp.status ≠ 200 ∧
    (putResources sampleEnv sampleDb sampleStorage 1 (some ⟨"h.txt"⟩)
        (some "77") none).resp.status = 500 := by
  refine ⟨rfl, ?_, rfl⟩
  rw [show (putResources sampleEnv sampleDb sampleStorage 1 none none
      none).resp.status = 400 from by rfl]
  decide

/-- C6 (amended): a multipart PUT on an existing resource answering a
nonempty subset of the updatable fields whose supplied foreign keys
reference existing rows gets a 200; only the supplied fields are
replaced; and when a new file was uploaded the old stored object's
delete is attempted (it is removed whenever GCS cooperates).  The empty
subset gets a 400 and a dangling foreign key a 500 (counterexample). -/
theorem putResources_partial_update (env : Env) (db : Db)
    (storage : List String) (id : Nat) (r : ResourceRow)
    (hr : db.findResource id = some r)
    (user_id category_id : Option String)
    (hu : refFieldOk db.userExists user_id)
    (hc : refFieldOk db.categoryExists category_id) :
    (∀ f : FilePayload, f.originalname ≠ "" → env.uploadOk = true →
      (putResources env db storage id (some f) user_id
          category_id).resp = ⟨200, "Recurso actualizado con éxito"⟩ ∧
      (∃ v, (putResources env db storage id (some f) user_id
            category_id).db.findResource id = some v ∧
        v.filename = f.originalname ∧
        v.path = bucketUrlBase ++ blobNameOf env.now f.originalname ∧
        v.user_id = (natField user_id).getD r.user_id ∧
        v.category_id = (natField category_id).getD r.category_id) ∧
      (r.path ≠ "" → env.deleteOk = true →
        (putResources env db storage id (some f) user_id
            category_id).storage =
          (storage ++ [blobNameOf env.now f.originalname]).erase
            (lastSegment r.path))) ∧
    ((jsTruthy user_id || jsTruthy category_id) = true →
      (putResources env db storage id none user_id category_id).resp =
        ⟨200, "Recurso actualizado con éxito"⟩ ∧
      (∃ v, (putResources env db storage id none user_id
            category_id).db.findResource id = some v ∧
        v.filename = r.filename ∧ v.path = r.path ∧
        v.user_id = (natField user_id).getD r.user_id ∧
        v.category_id = (natField category_id).getD r.category_id) ∧
      (putResources env db storage id none user_id category_id).storage =
        storage) := by
  have hr' : db.resources.find? (fun x => x.id == id) = some r := hr
  constructor
  · intro f hfn hup
    have hfnT : truthyOpt (some f.originalname) = some f.originalname := by
      simp [truthyOpt, jsTruthy, hfn]
    have hpaT : truthyOpt (some (bucketUrlBase ++
        blobNameOf env.now f.originalname)) =
        some (bucketUrlBase ++ blobNameOf env.now f.originalname) := by
      simp [truthyOpt, jsTruthy, bucketUrl_ne_empty]
    simp only [putResources, hr, hup, if_true]
    rw [updateResource_ok_of_refFieldOk db id _ _ user_id category_id
      hu hc]
    refine ⟨rfl, ⟨Db.applyResourceFields r
        (truthyOpt (some f.originalname))
        (truthyOpt (some (bucketUrlBase ++
          blobNameOf env.now f.originalname)))
        (natField user_id) (natField category_id), ?_, ?_, ?_, rfl, rfl⟩,
      ?_⟩
    · simp only [Db.findResource, logAction_resources]
      rw [findMapIf db.resources (fun x => x.id == id)
        (fun x => Db.applyResourceFields x
          (truthyOpt (some f.originalname))
          (truthyOpt (some (bucketUrlBase ++
            blobNameOf env.now f.originalname)))
          (natField user_id) (natField category_id))
        (fun v => rfl), hr']
      rfl
    · simp [Db.applyResourceFields, hfnT]
    · simp [Db.applyResourceFields, hpaT]
    · intro hp hdel
      simp [hp, gcsDeleteByPath, hdel]
  · intro hft
    simp only [putResources, hr, hft, if_true]
    rw [updateResource_ok_of_refFieldOk db id none none user_id
      category_id hu hc]
    refine ⟨rfl, ⟨Db.applyResourceFields r none none
        (natField user_id) (natField category_id), ?_, rfl, rfl, rfl,
        rfl⟩, rfl⟩
    simp only [Db.findResource, logAction_resources]
    rw [findMapIf db.resources (fun x => x.id == id)
      (fun x => Db.applyResourceFields x none none
        (natField user_id) (natField category_id))
      (fun v => rfl), hr']
    rfl

theorem putResources_partial_update_witness :
    (putResources sampleEnv sampleDb sampleStorage 1 none (some "1")
        none).resp = ⟨200, "Recurso actualizado con éxito"⟩ ∧
    (∃ v, (putResources sampleEnv sampleDb sampleStorage 1 none (some "1")
          none).db.findResource 1 = some v ∧
      v.filename = sampleResource.filename ∧
      v.path = sampleResource.path ∧
      v.user_id = (natField (some "1")).getD sampleResource.user_id ∧
      v.category_id = (natField none).getD sampleResource.category_id) ∧
    (putResources sampleEnv sampleDb sampleStorage 1 none (some "1")
        none).storage = sampleStorage :=
  (putResources_partial_update sampleEnv sampleDb sampleStorage 1
    sampleResource (by rfl) (some "1") none
    (fun s hs _ => by
      cases hs
      exact ⟨1, by rfl, by rfl⟩)
    (fun s hs => by cases hs)).2 (by rfl)

theorem postCategories_logOk (env : Env) (b : Bool) (db : Db)
    (name : Option String) :
    (postCategories { env with logOk := b } db name).resp =
      (postCategories env db name).resp ∧
    ((postCategories { env with logOk := b } db name).db).dropLogs =
      ((postCategories env db name).db).dropLogs := by
  rcases name with _ | raw
  · exact ⟨rfl, rfl⟩
  · by_cases h : raw = ""
    · simp [postCategories, h]
    · simp [postCategories, h, dropLogs_logAction]

theorem putCategories_logOk (env : Env) (b : Bool) (db : Db) (id : Nat)
    (name : Option String) :
    (putCategories { env with logOk := b } db id name).resp =
      (putCategories env db id name).resp ∧
    ((putCategories { env with logOk := b } db id name).db).dropLogs =
      ((putCategories env db id name).db).dropLogs := by
  rcases name with _ | raw
  · exact ⟨rfl, rfl⟩
  · by_cases h : raw = ""
    · simp [putCategories, h]
    · by_cases hce : db.categoryExists id
      · simp [putCategories, h, hce, dropLogs_logAction]
      · simp [putCategories, h, hce]

theorem deleteCategories_logOk (env : Env) (b : Bool) (db : Db)
    (id : Nat) :
    (deleteCategories { env with logOk := b } db id).resp =
      (deleteCategories env db id).resp ∧
    ((deleteCategories { env with logOk := b } db id).db).dropLogs =
      ((deleteCategories env db id).db).dropLogs := by
  rcases h : db.deleteCategoryRow id with e | ⟨db1, n⟩
  · rcases e <;> simp [deleteCategories, h]
  · rcases n with _ | n
    · simp [deleteCategories, h]
    · simp [deleteCategories, h, dropLogs_logAction]

theorem postUsers_logOk (env : Env) (b : Bool) (db : Db)
    (username email password : Option String) :
    (postUsers { env with logOk := b } db username email password).resp =
      (postUsers env db username email password).resp ∧
    ((postUsers { env with logOk := b } db username email
        password).db).dropLogs =
      ((postUsers env db username email password).db).dropLogs := by
  have hval : firstUserError { env with logOk := b } username email
      password = firstUserError env username email password := rfl
  rcases h : firstUserError env username email password with _ | msg
  · by_cases hdup : db.users.any
        (fun u => u.username == username.getD "")
    · simp [postUsers, hval, h, hdup]
    · simp [postUsers, hval, h, hdup, dropLogs_logAction]
  · simp [postUsers, hval, h]

theorem putUsers_logOk (env : Env) (b : Bool) (db : Db) (id : Nat)
    (username email password : Option String) :
    (putUsers { env with logOk := b } db id username email
        password).resp =
      (putUsers env db id username email password).resp ∧
    ((putUsers { env with logOk := b } db id username email
        password).db).dropLogs =
      ((putUsers env db id username email password).db).dropLogs := by
  rcases hu : db.findUser id with _ | u
  · simp [putUsers, hu]
  · simp only [putUsers, hu]
    rcases updateUser_db db id (jsOr username u.username)
        (jsOr email u.email)
        (if jsTruthy password then env.bcryptHash (password.getD "")
         else u.password) with herr | hok
    · simp [herr]
    · simp [hok, dropLogs_logAction]

theorem deleteUsers_logOk (env : Env) (b : Bool) (db : Db) (id : Nat) :
    (deleteUsers { env with logOk := b } db id).resp =
      (deleteUsers env db id).resp ∧
    ((deleteUsers { env with logOk := b } db id).db).dropLogs =
      ((deleteUsers env db id).db).dropLogs := by
  rcases h : db.deleteUserRow id with e | ⟨db1, n⟩
  · rcases e <;> simp [deleteUsers, h]
  · rcases n with _ | n
    · simp [deleteUsers, h]
    · simp [deleteUsers, h, dropLogs_logAction]

theorem postResources_logOk (env : Env) (b : Bool) (db : Db)
    (storage : List String) (file : Option FilePayload)
    (user_id category_id : Option String) :
    (postResources { env with logOk := b } db storage file user_id
        category_id).resp =
      (postResources env db storage file user_id category_id).resp ∧
    ((postResources { env with logOk := b } db storage file user_id
        category_id).db).dropLogs =
      ((postResources env db storage file user_id
        category_id).db).dropLogs ∧
    (postResources { env with logOk := b } db storage file user_id
        category_id).storage =
      (postResources env db storage file user_id category_id).storage := by
  rcases hval : firstResourceError user_id category_id with _ | msg
  · rcases file with _ | f
    · simp [postResources, hval]
    · by_cases hup : env.uploadOk = true
      · simp only [postResources, hval, hup, if_true]
        rcases hins : db.insertResource f.originalname
            (bucketUrlBase ++ blobNameOf env.now f.originalname)
            (parseIntField user_id) (parseIntField category_id)
          with e | ⟨db1, row⟩
        · rcases e <;> simp [hins]
        · simp [hins, dropLogs_logAction]
      · simp [postResources, hval, hup]
  · simp [postResources, hval]

theorem putResources_logOk (env : Env) (b : Bool) (db : Db)
    (storage : List String) (id : Nat) (file : Option FilePayload)
    (user_id category_id : Option String) :
    (putResources { env with logOk := b } db storage id file user_id
        category_id).resp =
      (putResources env db storage id file user_id category_id).resp ∧
    ((putResources { env with logOk := b } db storage id file user_id
        category_id).db).dropLogs =
      ((putResources env db storage id file user_id
        category_id).db).dropLogs ∧
    (putResources { env with logOk := b } db storage id file user_id
        category_id).storage =
      (putResources env db storage id file user_id category_id).storage := by
  rcases hr : db.findResource id with _ | r
  · simp [putResources, hr]
  · rcases file with _ | f
    · by_cases hft : (jsTruthy user_id || jsTruthy category_id) = true
      · simp only [putResources, hr, hft, if_true]
        rcases updateResource_db db id none none
            (truthyOpt user_id) (truthyOpt category_id) with ⟨e, he⟩ | hok
        · simp [he]
        · simp [hok, dropLogs_logAction]
      · simp [putResources, hr, hft]
    · by_cases hup : env.uploadOk = true
      · simp only [putResources, hr, hup, if_true]
        rcases updateResource_db db id (truthyOpt (some f.originalname))
            (truthyOpt (some (bucketUrlBase ++
              blobNameOf env.now f.originalname)))
            (truthyOpt user_id) (truthyOpt category_id) with ⟨e, he⟩ | hok
        · simp [he, gcsDeleteByPath]
        · simp [hok, dropLogs_logAction, gcsDeleteByPath]
      · simp [putResources, hr, hup]

theorem deleteResources_logOk (env : Env) (b : Bool) (db : Db)
    (storage : List String) (id : Nat) :
    (deleteResources { env with logOk := b } db storage id).resp =
      (deleteResources env db storage id).resp ∧
    ((deleteResources { env with logOk := b } db storage id).db).dropLogs =
      ((deleteResources env db storage id).db).dropLogs ∧
    (deleteResources { env with logOk := b } db storage id).storage =
      (deleteResources env db storage id).storage := by
  rcases hr : db.findResource id with _ | r
  · simp [deleteResources, hr]
  · simp [deleteResources, hr, dropLogs_logAction, gcsDeleteByPath]

/-- C8: the audit append is best-effort: `logAction` catches the failed
`INSERT INTO logs` (the error never escapes the logger), and for every
mutation handler the response sent to the client is identical whether
the log insert succeeds or fails. -/
theorem logging_best_effort :
    (∀ (db : Db) (a : String),
      dbInsertLog false db a = .error "log insert failed" ∧
      logAction false db a = db) ∧
    (∀ (b : Bool) (db : Db) (a : String),
      (logAction b db a).dropLogs = db.dropLogs) ∧
    (∀ (env : Env) (b : Bool) (db : Db) (name : Option String),
      (postCategories { env with logOk := b } db name).resp =
        (postCategories env db name).resp) ∧
    (∀ (env : Env) (b : Bool) (db : Db) (id : Nat) (name : Option String),
      (putCategories { env with logOk := b } db id name).resp =
        (putCategories env db id name).resp) ∧
    (∀ (env : Env) (b : Bool) (db : Db) (id : Nat),
      (deleteCategories { env with logOk := b } db id).resp =
        (deleteCategories env db id).resp) ∧
    (∀ (env : Env) (b : Bool) (db : Db)
       (username email password : Option String),
      (postUsers { env with logOk := b } db username email password).resp =
        (postUsers env db username email password).resp) ∧
    (∀ (env : Env) (b : Bool) (db : Db) (id : Nat)
       (username email password : Option String),
      (putUsers { env with logOk := b } db id username email
          password).resp =
        (putUsers env db id username email password).resp) ∧
    (∀ (env : Env) (b : Bool) (db : Db) (id : Nat),
      (deleteUsers { env with logOk := b } db id).resp =
        (deleteUsers env db id).resp) ∧
    (∀ (env : Env) (b : Bool) (db : Db) (storage : List String)
       (file : Option FilePayload) (user_id category_id : Option String),
      (postResources { env with logOk := b } db storage file user_id
          category_id).resp =
        (postResources env db storage file user_id category_id).resp) ∧
    (∀ (env : Env) (b : Bool) (db : Db) (storage : List String) (id : Nat)
       (file : Option FilePayload) (user_id category_id : Option String),
      (putResources { env with logOk := b } db storage id file user_id
          category_id).resp =
        (putResources env db storage id file user_id category_id).resp) ∧
    (∀ (env : Env) (b : Bool) (db : Db) (storage : List String)
       (id : Nat),
      (deleteResources { env with logOk := b } db storage id).resp =
        (deleteResources env db storage id).resp) :=
  ⟨fun _ _ => ⟨rfl, rfl⟩,
   fun b db a => dropLogs_logAction b db a,
   fun env b db name => (postCategories_logOk env b db name).1,
   fun env b db id name => (putCategories_logOk env b db id name).1,
   fun env b db id => (deleteCategories_logOk env b db id).1,
   fun env b db un em pw => (postUsers_logOk env b db un em pw).1,
   fun env b db id un em pw => (putUsers_logOk env b db id un em pw).1,
   fun env b db id => (deleteUsers_logOk env b db id).1,
   fun env b db st f uid cid => (postResources_logOk env b db st f uid cid).1,
   fun env b db st id f uid cid =>
     (putResources_logOk env b db st id f uid cid).1,
   fun env b db st id => (deleteResources_logOk env b db st id).1⟩
